import Mathlib

/-!
Shallow embedding of `src/components/common/ErrorBoundary/ErrorBoundary.tsx`:
a React class component that catches render-phase exceptions thrown by its
descendant subtree and renders a fallback view.  The embedding models the
component state, the props, the three lifecycle members
(`getDerivedStateFromError`, `componentDidCatch`, `handleReset`), the
`render` method (including the full default fallback JSX tree), and the
React cycle that drives them when a child render throws.
-/

/-- A JavaScript `Error` value: `name` and `message`.
`Error.prototype.toString()` returns `name` when the message is empty,
`message` when the name is empty, and `name ++ ": " ++ message` otherwise. -/
structure JsError where
  name : String
  message : String
deriving DecidableEq, Repr

def JsError.toString (e : JsError) : String :=
  if e.message = "" then e.name
  else if e.name = "" then e.message
  else e.name ++ ": " ++ e.message

/-- React `ErrorInfo`: the structured description of which descendant threw
(the originating-component trace).  The code reads only `componentStack`. -/
structure ErrorInfo where
  componentStack : String
deriving DecidableEq, Repr

/-- A React node, as the JSX in the source produces them: `null`, booleans
(JSX renders `false` as nothing), strings, host/component elements with a tag,
an attribute list (event handlers are identified by handler name), and a
children list. -/
inductive ReactNode where
  | null : ReactNode
  | bool : Bool → ReactNode
  | str : String → ReactNode
  | element : String → List (String × String) → List ReactNode → ReactNode
deriving Repr

/-- JavaScript truthiness of a `ReactNode` value, as tested by
`if (this.props.fallback)`: `null`, `false` and the empty string are falsy;
element objects are always truthy. -/
def ReactNode.truthy : ReactNode → Bool
  | .null => false
  | .bool b => b
  | .str s => s != ""
  | .element _ _ _ => true

mutual

/-- Whether a node tree contains an element with the given tag. -/
def ReactNode.containsTag (t : String) : ReactNode → Bool
  | .element tag _ cs => tag == t || ReactNode.listContainsTag t cs
  | .null => false
  | .bool _ => false
  | .str _ => false

def ReactNode.listContainsTag (t : String) : List ReactNode → Bool
  | [] => false
  | c :: cs => ReactNode.containsTag t c || ReactNode.listContainsTag t cs

end

mutual

/-- The concatenated text of a node tree, in document order (`null`, booleans
and attributes contribute nothing, as in rendered markup). -/
def ReactNode.textContent : ReactNode → String
  | .str s => s
  | .element _ _ cs => ReactNode.listTextContent cs
  | .null => ""
  | .bool _ => ""

def ReactNode.listTextContent : List ReactNode → String
  | [] => ""
  | c :: cs => ReactNode.textContent c ++ ReactNode.listTextContent cs

end

/-- The build environment: `import.meta.env.DEV` is the development flag and
`import.meta.env.PROD` its negation (Vite guarantees the two are opposite). -/
structure Env where
  DEV : Bool
deriving DecidableEq, Repr

def Env.PROD (env : Env) : Bool := !env.DEV

/-- `interface ErrorBoundaryState` from the source: `hasError: boolean`,
`error: Error | null`, `errorInfo: ErrorInfo | null`. -/
structure ErrorBoundaryState where
  hasError : Bool
  error : Option JsError
  errorInfo : Option ErrorInfo
deriving DecidableEq, Repr

/-- `interface ErrorBoundaryProps` from the source: required `children`,
optional `fallback` node, optional `onError` callback.  The callback itself is
opaque; the model records its presence, and its invocations are returned as an
event list by `componentDidCatch`. -/
structure ErrorBoundaryProps where
  children : ReactNode
  fallback : Option ReactNode
  onError : Option Unit
deriving Repr

/- CSS-module class names used by the fallback JSX
(`ErrorBoundary.module.css` keys, held abstract as their key strings). -/
namespace styles

def container : String := "container"

def content : String := "content"

def forestDecoration : String := "forestDecoration"

def treeSvg : String := "treeSvg"

def errorIcon : String := "errorIcon"

def title : String := "title"

def description : String := "description"

def navigation : String := "navigation"

def primaryButton : String := "primaryButton"

def secondaryButton : String := "secondaryButton"

def helpfulLinks : String := "helpfulLinks"

def helpfulText : String := "helpfulText"

def linkList : String := "linkList"

def support : String := "support"

def errorDetails : String := "errorDetails"

def errorSummary : String := "errorSummary"

def errorStack : String := "errorStack"

def errorContent : String := "errorContent"

end styles

namespace ErrorBoundary

/-- The `constructor`: `this.state = { hasError: false, error: null,
errorInfo: null }`. -/
def initialState : ErrorBoundaryState :=
  { hasError := false, error := none, errorInfo := none }

/-- `static getDerivedStateFromError(error)`: returns the partial state
`{ hasError: true, error }`, which React merges into the current state
(so `errorInfo` is left unchanged). -/
def getDerivedStateFromError (error : JsError) (s : ErrorBoundaryState) :
    ErrorBoundaryState :=
  { s with hasError := true, error := some error }

/-- The externally visible effects of one `componentDidCatch` run:
`console.error` invocations (emitted only under `DEV`) and invocations of the
optional `onError` prop, each carrying `(error, errorInfo)`. -/
structure CatchEffects where
  consoleErrors : List (JsError × ErrorInfo)
  onErrorCalls : List (JsError × ErrorInfo)
deriving DecidableEq, Repr

/-- `componentDidCatch(error, errorInfo)`: logs to the console under `DEV`,
merges `{ error, errorInfo }` into the state via `setState` (note: it does not
touch `hasError`), and calls `this.props.onError(error, errorInfo)` when the
prop is present.  The `PROD` branch in the source is an empty comment block. -/
def componentDidCatch (env : Env) (props : ErrorBoundaryProps)
    (error : JsError) (errorInfo : ErrorInfo) (s : ErrorBoundaryState) :
    ErrorBoundaryState × CatchEffects :=
  let console := if env.DEV then [(error, errorInfo)] else []
  let s' := { s with error := some error, errorInfo := some errorInfo }
  let calls :=
    match props.onError with
    | some _ => [(error, errorInfo)]
    | none => []
  (s', { consoleErrors := console, onErrorCalls := calls })

/-- `handleReset`: `setState({ hasError: false, error: null,
errorInfo: null })`. -/
def handleReset (_s : ErrorBoundaryState) : ErrorBoundaryState :=
  { hasError := false, error := none, errorInfo := none }

/-- The decorative forest `<div>` of the default fallback JSX. -/
def forestDecoration : ReactNode :=
  .element "div" [("className", styles.forestDecoration), ("aria-hidden", "true")]
    [ .element "svg" [("viewBox", "0 0 200 120"), ("className", styles.treeSvg)]
        [ .element "path"
            [("d", "M100 10 L130 50 L115 50 L140 90 L60 90 L85 50 L70 50 Z"),
             ("fill", "currentColor"), ("opacity", "0.3")] [],
          .element "rect"
            [("x", "95"), ("y", "90"), ("width", "10"), ("height", "20"),
             ("fill", "currentColor"), ("opacity", "0.4")] [],
          .element "path"
            [("d", "M60 25 L80 55 L70 55 L90 85 L30 85 L50 55 L40 55 Z"),
             ("fill", "currentColor"), ("opacity", "0.2")] [],
          .element "rect"
            [("x", "56"), ("y", "85"), ("width", "8"), ("height", "15"),
             ("fill", "currentColor"), ("opacity", "0.3")] [],
          .element "path"
            [("d", "M150 30 L170 60 L160 60 L175 85 L125 85 L140 60 L130 60 Z"),
             ("fill", "currentColor"), ("opacity", "0.25")] [],
          .element "rect"
            [("x", "147"), ("y", "85"), ("width", "7"), ("height", "12"),
             ("fill", "currentColor"), ("opacity", "0.35")] [] ] ]

/-- The error icon `<div>` of the default fallback JSX. -/
def errorIcon : ReactNode :=
  .element "div" [("className", styles.errorIcon), ("aria-hidden", "true")]
    [ .element "svg"
        [("viewBox", "0 0 24 24"), ("width", "64"), ("height", "64"),
         ("fill", "none"), ("stroke", "currentColor"), ("strokeWidth", "2")]
        [ .element "circle" [("cx", "12"), ("cy", "12"), ("r", "10")] [],
          .element "line" [("x1", "12"), ("y1", "8"), ("x2", "12"), ("y2", "12")] [],
          .element "line" [("x1", "12"), ("y1", "16"), ("x2", "12.01"), ("y2", "16")] [] ] ]

/-- The `<h1 id="error-title">` heading of the default fallback JSX. -/
def errorTitle : ReactNode :=
  .element "h1" [("id", "error-title"), ("className", styles.title)]
    [.str "Something Went Wrong"]

/-- The error message `<p>` of the default fallback JSX. -/
def errorDescription : ReactNode :=
  .element "p" [("className", styles.description)]
    [ .str "We encountered an unexpected error while loading this page.",
      .element "br" [] [],
      .str "Don\x27t worry, our team has been notified and we\x27re working to fix it." ]

/-- The retry `<button>`: its `onClick` is the `handleReset` handler. -/
def retryButton : ReactNode :=
  .element "button" [("onClick", "handleReset"), ("className", styles.primaryButton)]
    [ .element "span" [] [.str "Try Again"],
      .element "svg"
        [("viewBox", "0 0 24 24"), ("width", "20"), ("height", "20"),
         ("fill", "none"), ("stroke", "currentColor"), ("strokeWidth", "2")]
        [ .element "path" [("d", "M1 4v6h6M23 20v-6h-6")] [],
          .element "path"
            [("d", "M20.49 9A9 9 0 0 0 5.64 5.64L1 10m22 4l-4.64 4.36A9 9 0 0 1 3.51 15")]
            [] ] ]

/-- The `<Link to="/">` button of the default fallback JSX. -/
def homeLink : ReactNode :=
  .element "Link" [("to", "/"), ("className", styles.secondaryButton)]
    [ .element "span" [] [.str "Return Home"],
      .element "svg"
        [("viewBox", "0 0 24 24"), ("width", "20"), ("height", "20"),
         ("fill", "none"), ("stroke", "currentColor"), ("strokeWidth", "2")]
        [ .element "path"
            [("d", "M3 12l2-2m0 0l7-7 7 7M5 10v10a1 1 0 001 1h3m10-11l2 2m-2-2v10a1 1 0 01-1 1h-3m-6 0a1 1 0 001-1v-4a1 1 0 011-1h2a1 1 0 011 1v4a1 1 0 001 1m-6 0h6")]
            [] ] ]

/-- The `<nav>` with the retry button and the home link. -/
def navigationNode : ReactNode :=
  .element "nav" [("className", styles.navigation), ("aria-label", "Error page navigation")]
    [retryButton, homeLink]

/-- The helpful-links `<div>` with the three static router links. -/
def helpfulLinksNode : ReactNode :=
  .element "div" [("className", styles.helpfulLinks)]
    [ .element "p" [("className", styles.helpfulText)] [.str "Or try visiting:"],
      .element "ul" [("className", styles.linkList)]
        [ .element "li" []
            [.element "Link" [("to", "/people-for-the-planet")] [.str "People for the Planet"]],
          .element "li" []
            [.element "Link" [("to", "/business-for-the-planet")] [.str "Business for the Planet"]],
          .element "li" []
            [.element "Link" [("to", "/about")] [.str "About Us"]] ] ]

/-- The contact-support `<p>` (the JSX `\x7b' '\x7d` child is the literal
space string). -/
def supportNode : ReactNode :=
  .element "p" [("className", styles.support)]
    [ .str "Need help? Contact us at",
      .str " ",
      .element "a" [("href", "mailto:connect@sacredgroves.earth")]
        [.str "connect@sacredgroves.earth"] ]

/-- The conditional diagnostic panel
`\x7bimport.meta.env.DEV && this.state.error && (<details>...)\x7d`:
when `DEV` is false the conjunction short-circuits to the JSX value `false`;
when `state.error` is null it short-circuits to `null`; otherwise it is the
`<details>` element whose `<pre>` holds `state.error.toString()` followed by
`state.errorInfo?.componentStack` (optional chaining: `null` when `errorInfo`
is absent, and JSX renders that as nothing). -/
def devPanel (env : Env) (s : ErrorBoundaryState) : ReactNode :=
  if env.DEV then
    match s.error with
    | some e =>
        .element "details" [("className", styles.errorDetails)]
          [ .element "summary" [("className", styles.errorSummary)]
              [.str "Error Details (Development Only)"],
            .element "div" [("className", styles.errorContent)]
              [ .element "pre" [("className", styles.errorStack)]
                  [ .str (JsError.toString e),
                    match s.errorInfo with
                    | some info => .str info.componentStack
                    | none => ReactNode.null ] ] ]
    | none => ReactNode.null
  else ReactNode.bool false

/-- The children of the content `<div>` of the built-in recovery view, in
source order. -/
def recoveryChildren (env : Env) (s : ErrorBoundaryState) : List ReactNode :=
  [ forestDecoration, errorIcon, errorTitle, errorDescription,
    navigationNode, helpfulLinksNode, supportNode, devPanel env s ]

/-- The built-in recovery view: the `<section>` returned by `render` when
`hasError` is set and no truthy custom fallback is supplied. -/
def defaultFallback (env : Env) (s : ErrorBoundaryState) : ReactNode :=
  .element "section" [("className", styles.container), ("aria-labelledby", "error-title")]
    [ .element "div" [("className", styles.content)] (recoveryChildren env s) ]

/-- `render()`: when `state.hasError` is set, return the custom fallback if
the prop is truthy (`if (this.props.fallback)` is a JavaScript truthiness
test, and an absent prop is `undefined`, hence falsy), else the built-in
recovery view; otherwise return `this.props.children` unchanged. -/
def render (env : Env) (props : ErrorBoundaryProps) (s : ErrorBoundaryState) :
    ReactNode :=
  if s.hasError then
    match props.fallback with
    | some fb => if fb.truthy then fb else defaultFallback env s
    | none => defaultFallback env s
  else props.children

/-- No effects: what a cycle without a capture emits. -/
def noEffects : CatchEffects := { consoleErrors := [], onErrorCalls := [] }

/-- The outcome of rendering a subtree: either a node, or a synchronously
thrown render-phase exception together with the component trace React builds
for it. -/
inductive ChildOutcome where
  | ok : ReactNode → ChildOutcome
  | throws : JsError → ErrorInfo → ChildOutcome
deriving Repr

/-- One React cycle around the boundary, given how the descendant subtree
behaves.  When the boundary is already showing a fallback the descendants are
not rendered, so the child outcome is irrelevant.  When a descendant throws,
React runs `getDerivedStateFromError`, then `componentDidCatch` on the derived
state, then re-renders; the exception is consumed and the cycle's result is
always an `ok` node, never a re-raise. -/
def reactCycle (env : Env) (props : ErrorBoundaryProps)
    (s : ErrorBoundaryState) (child : ChildOutcome) :
    ErrorBoundaryState × CatchEffects × ChildOutcome :=
  if s.hasError then (s, noEffects, .ok (render env props s))
  else
    match child with
    | .ok _ => (s, noEffects, .ok (render env props s))
    | .throws e info =>
        let s1 := getDerivedStateFromError e s
        let (s2, fx) := componentDidCatch env props e info s1
        (s2, fx, .ok (render env props s2))

/-- The state a capture produces: `getDerivedStateFromError` sets `hasError`
and `error`, then the `setState` in `componentDidCatch` fills `errorInfo`. -/
def capturedState (e : JsError) (info : ErrorInfo) : ErrorBoundaryState :=
  { hasError := true, error := some e, errorInfo := some info }

/-- The boundary states reachable in a component instance: the constructor
state, the state after `getDerivedStateFromError` fires (observable before
`componentDidCatch` commits), the state after a full capture (both hooks, in
React order), and the state after the retry action. -/
inductive Reachable : ErrorBoundaryState → Prop where
  | init : Reachable initialState
  | derive (e : JsError) (s : ErrorBoundaryState) :
      Reachable s → Reachable (getDerivedStateFromError e s)
  | didCatch (env : Env) (props : ErrorBoundaryProps) (e : JsError)
      (info : ErrorInfo) (s : ErrorBoundaryState) :
      Reachable s →
      Reachable (componentDidCatch env props e info (getDerivedStateFromError e s)).1
  | reset (s : ErrorBoundaryState) : Reachable s → Reachable (handleReset s)

end ErrorBoundary

namespace ErrorBoundary

/-- Helper: a capture from a no-error state leaves the boundary in
`capturedState e info`, whatever the starting state and environment. -/
theorem reactCycle_throws_fst (env : Env) (props : ErrorBoundaryProps)
    (s : ErrorBoundaryState) (e : JsError) (info : ErrorInfo)
    (h : s.hasError = false) :
    (reactCycle env props s (.throws e info)).1 = capturedState e info := by
  simp [reactCycle, h, componentDidCatch, getDerivedStateFromError, capturedState]

/-- C4: whenever no failure has been captured (`hasError` is false), `render`
returns the `children` prop unchanged: pure pass-through of the descendant
subtree. -/
theorem c4_passthrough (env : Env) (props : ErrorBoundaryProps)
    (s : ErrorBoundaryState) (h : s.hasError = false) :
    render env props s = props.children := by
  simp [render, h]

theorem c4_passthrough_witness :
    render ⟨true⟩ ⟨.str "home", none, none⟩ initialState = .str "home" :=
  c4_passthrough ⟨true⟩ ⟨.str "home", none, none⟩ initialState rfl

/-- C8: the retry action is a constant map to the constructor state, hence
idempotent, and it fixes the initial state. -/
theorem c8_reset_constant_idempotent (s : ErrorBoundaryState) :
    handleReset s = initialState ∧
    handleReset (handleReset s) = handleReset s ∧
    handleReset initialState = initialState :=
  ⟨rfl, rfl, rfl⟩

/-- C5: in every reachable boundary state (constructor state, state after
`getDerivedStateFromError`, state after a full capture, state after a reset),
`hasError` is true exactly when the stored `error` is non-null. -/
theorem c5_hasError_iff_error (s : ErrorBoundaryState) (h : Reachable s) :
    s.hasError = true ↔ s.error ≠ none := by
  induction h with
  | init => simp [initialState]
  | derive e s hs ih => simp [getDerivedStateFromError]
  | didCatch env props e info s hs ih =>
      simp [componentDidCatch, getDerivedStateFromError]
  | reset s hs ih => simp [handleReset]

theorem c5_hasError_iff_error_witness :
    (initialState.hasError = true ↔ initialState.error ≠ none) :=
  c5_hasError_iff_error initialState Reachable.init

/-- C2: when the `onError` prop is supplied, a capture invokes it exactly
once, with the thrown error and the `ErrorInfo` trace; the invocation list of
the cycle is the singleton `[(e, info)]`. -/
theorem c2_onError_exactly_once (env : Env) (props : ErrorBoundaryProps)
    (s : ErrorBoundaryState) (e : JsError) (info : ErrorInfo)
    (h : s.hasError = false) (hcb : props.onError = some ()) :
    (reactCycle env props s (.throws e info)).2.1.onErrorCalls = [(e, info)] ∧
    (reactCycle env props s (.throws e info)).2.1.onErrorCalls.length = 1 := by
  simp [reactCycle, h, componentDidCatch, hcb, getDerivedStateFromError]

theorem c2_onError_exactly_once_witness :
    (reactCycle ⟨true⟩ ⟨.str "home", none, some ()⟩ initialState
        (.throws ⟨"Error", "X failed"⟩ ⟨"at Page"⟩)).2.1.onErrorCalls =
      [(⟨"Error", "X failed"⟩, ⟨"at Page"⟩)] :=
  (c2_onError_exactly_once ⟨true⟩ ⟨.str "home", none, some ()⟩ initialState
      ⟨"Error", "X failed"⟩ ⟨"at Page"⟩ rfl rfl).1

/-- C3: after a capture, the retry action restores the constructor state
(no error captured), and a following cycle whose descendants render
successfully produces exactly the `children` prop, with no trace of the
fallback view. -/
theorem c3_reset_then_success (env env' : Env) (props props' : ErrorBoundaryProps)
    (s : ErrorBoundaryState) (e : JsError) (info : ErrorInfo) (n : ReactNode)
    (_h : s.hasError = false) :
    handleReset (reactCycle env props s (.throws e info)).1 = initialState ∧
    reactCycle env' props'
        (handleReset (reactCycle env props s (.throws e info)).1) (.ok n) =
      (initialState, noEffects, .ok props'.children) := by
  refine ⟨rfl, ?_⟩
  simp [handleReset, reactCycle, initialState, render]

/-- Helper: the whole result of a capture cycle from a no-error state:
captured state, the `componentDidCatch` effects, and the re-render of the
captured state. -/
theorem reactCycle_throws_eq (env : Env) (props : ErrorBoundaryProps)
    (s : ErrorBoundaryState) (e : JsError) (info : ErrorInfo)
    (h : s.hasError = false) :
    reactCycle env props s (.throws e info) =
      (capturedState e info,
       (componentDidCatch env props e info (getDerivedStateFromError e s)).2,
       ChildOutcome.ok (render env props (capturedState e info))) := by
  simp [reactCycle, h, componentDidCatch, getDerivedStateFromError, capturedState]

/-- Helper: a capture cycle with a truthy custom fallback renders exactly that
fallback. -/
theorem reactCycle_throws_truthy (env : Env) (props : ErrorBoundaryProps)
    (s : ErrorBoundaryState) (e : JsError) (info : ErrorInfo) (fb : ReactNode)
    (h : s.hasError = false) (hfb : props.fallback = some fb)
    (ht : fb.truthy = true) :
    (reactCycle env props s (.throws e info)).2.2 = ChildOutcome.ok fb := by
  simp [reactCycle, h, componentDidCatch, getDerivedStateFromError, render, hfb, ht]

/-- Helper: a capture cycle with no truthy custom fallback renders the
built-in recovery view of the captured state. -/
theorem reactCycle_throws_default (env : Env) (props : ErrorBoundaryProps)
    (s : ErrorBoundaryState) (e : JsError) (info : ErrorInfo)
    (h : s.hasError = false)
    (hfb : ∀ fb, props.fallback = some fb → fb.truthy = false) :
    (reactCycle env props s (.throws e info)).2.2 =
      ChildOutcome.ok (defaultFallback env (capturedState e info)) := by
  cases hfbv : props.fallback with
  | none =>
      simp [reactCycle, h, componentDidCatch, getDerivedStateFromError, render,
        hfbv, capturedState]
  | some fb =>
      have ht := hfb fb hfbv
      simp [reactCycle, h, componentDidCatch, getDerivedStateFromError, render,
        hfbv, ht, capturedState]

theorem c3_reset_then_success_witness :
    reactCycle ⟨true⟩ ⟨.str "recovered", none, none⟩
        (handleReset (reactCycle ⟨true⟩ ⟨.str "page", none, none⟩ initialState
          (.throws ⟨"Error", "X failed"⟩ ⟨"at Page"⟩)).1) (.ok (.str "recovered")) =
      (initialState, noEffects, .ok (.str "recovered")) :=
  (c3_reset_then_success ⟨true⟩ ⟨true⟩ ⟨.str "page", none, none⟩
      ⟨.str "recovered", none, none⟩ initialState ⟨"Error", "X failed"⟩
      ⟨"at Page"⟩ (.str "recovered") rfl).2

/-- C1 fails as stated: `fallback=\x7bnull\x7d` is a supplied fallback prop
(`ReactNode` includes `null`), yet after a capture the rendered output is the
built-in recovery view, not the supplied view — `if (this.props.fallback)`
tests truthiness, and `null` is falsy. -/
theorem c1_counterexample :
    (⟨.element "main" [] [], some ReactNode.null, none⟩ : ErrorBoundaryProps).fallback =
      some ReactNode.null ∧
    (reactCycle ⟨false⟩ ⟨.element "main" [] [], some ReactNode.null, none⟩
        initialState (.throws ⟨"Error", "boom"⟩ ⟨"at Main"⟩)).2.2 =
      ChildOutcome.ok (defaultFallback ⟨false⟩
        (capturedState ⟨"Error", "boom"⟩ ⟨"at Main"⟩)) ∧
    (reactCycle ⟨false⟩ ⟨.element "main" [] [], some ReactNode.null, none⟩
        initialState (.throws ⟨"Error", "boom"⟩ ⟨"at Main"⟩)).2.2 ≠
      ChildOutcome.ok ReactNode.null := by
  refine ⟨rfl, rfl, ?_⟩
  simp [reactCycle, initialState, componentDidCatch, getDerivedStateFromError,
    render, ReactNode.truthy, defaultFallback]

/-- C1 (amended): when a descendant throws during render, the next rendered
output is the caller-supplied fallback when a truthy one is supplied,
otherwise the built-in recovery view, whose content holds the error icon, the
message, the navigation with the retry button and the home link, and the
static helpful links. -/
theorem c1_fallback_on_capture (env : Env) (props : ErrorBoundaryProps)
    (s : ErrorBoundaryState) (e : JsError) (info : ErrorInfo)
    (h : s.hasError = false) :
    (∀ fb, props.fallback = some fb → fb.truthy = true →
        (reactCycle env props s (.throws e info)).2.2 = ChildOutcome.ok fb) ∧
    ((∀ fb, props.fallback = some fb → fb.truthy = false) →
        (reactCycle env props s (.throws e info)).2.2 =
          ChildOutcome.ok (defaultFallback env (capturedState e info))) ∧
    errorIcon ∈ recoveryChildren env (capturedState e info) ∧
    errorTitle ∈ recoveryChildren env (capturedState e info) ∧
    errorDescription ∈ recoveryChildren env (capturedState e info) ∧
    navigationNode ∈ recoveryChildren env (capturedState e info) ∧
    helpfulLinksNode ∈ recoveryChildren env (capturedState e info) ∧
    navigationNode = .element "nav"
      [("className", styles.navigation), ("aria-label", "Error page navigation")]
      [retryButton, homeLink] := by
  refine ⟨fun fb hfb ht => reactCycle_throws_truthy env props s e info fb h hfb ht,
    fun hfb => reactCycle_throws_default env props s e info h hfb,
    ?_, ?_, ?_, ?_, ?_, rfl⟩ <;> simp [recoveryChildren]

theorem c1_fallback_on_capture_witness :
    (reactCycle ⟨false⟩ ⟨.str "page", none, none⟩ initialState
        (.throws ⟨"Error", "X failed"⟩ ⟨"at Page"⟩)).2.2 =
      ChildOutcome.ok (defaultFallback ⟨false⟩
        (capturedState ⟨"Error", "X failed"⟩ ⟨"at Page"⟩)) :=
  (c1_fallback_on_capture ⟨false⟩ ⟨.str "page", none, none⟩ initialState
      ⟨"Error", "X failed"⟩ ⟨"at Page"⟩ rfl).2.1
    (fun _fb hfb => Option.noConfusion hfb)

/-- C6 fails as stated: under the development flag, a capture in a boundary
whose caller supplied a (truthy) custom fallback renders that fallback, which
holds no diagnostic `<details>` panel at all. -/
theorem c6_counterexample :
    Env.DEV ⟨true⟩ = true ∧
    (reactCycle ⟨true⟩ ⟨.element "main" [] [],
        some (.element "div" [] [.str "custom fallback"]), none⟩
        initialState (.throws ⟨"Error", "boom"⟩ ⟨"at Main"⟩)).2.2 =
      ChildOutcome.ok (.element "div" [] [.str "custom fallback"]) ∧
    ((.element "div" [] [.str "custom fallback"]) : ReactNode).containsTag
      "details" = false :=
  ⟨rfl, rfl, by decide⟩

/-- C6 (amended): for a capture rendered by the built-in recovery view (no
truthy custom fallback): under the development flag the output holds the
diagnostic `<details>` panel, whose text is the summary caption followed by
the exception string form and the originating-component trace; under the
production flag no `<details>` element occurs in the output. -/
theorem c6_diagnostic_panel (env : Env) (props : ErrorBoundaryProps)
    (s : ErrorBoundaryState) (e : JsError) (info : ErrorInfo)
    (h : s.hasError = false)
    (hfb : ∀ fb, props.fallback = some fb → fb.truthy = false) :
    (reactCycle env props s (.throws e info)).2.2 =
      ChildOutcome.ok (defaultFallback env (capturedState e info)) ∧
    (env.DEV = true →
        (defaultFallback env (capturedState e info)).containsTag "details" = true ∧
        devPanel env (capturedState e info) ∈
          recoveryChildren env (capturedState e info) ∧
        (devPanel env (capturedState e info)).textContent =
          "Error Details (Development Only)" ++ JsError.toString e ++
            info.componentStack) ∧
    (env.DEV = false →
        (defaultFallback env (capturedState e info)).containsTag "details" = false) := by
  refine ⟨reactCycle_throws_default env props s e info h hfb, fun hdev => ⟨?_, ?_, ?_⟩,
    fun hdev => ?_⟩
  · simp [defaultFallback, recoveryChildren, forestDecoration, errorIcon, errorTitle,
      errorDescription, navigationNode, retryButton, homeLink, helpfulLinksNode,
      supportNode, devPanel, capturedState, hdev, ReactNode.containsTag,
      ReactNode.listContainsTag]
  · simp [recoveryChildren]
  · simp [devPanel, capturedState, hdev, ReactNode.textContent,
      ReactNode.listTextContent, String.append_empty, String.append_assoc]
  · simp [defaultFallback, recoveryChildren, forestDecoration, errorIcon, errorTitle,
      errorDescription, navigationNode, retryButton, homeLink, helpfulLinksNode,
      supportNode, devPanel, capturedState, hdev, ReactNode.containsTag,
      ReactNode.listContainsTag]

theorem c6_diagnostic_panel_witness :
    (defaultFallback ⟨true⟩
        (capturedState ⟨"Error", "X failed"⟩ ⟨"at Page"⟩)).containsTag "details" =
      true :=
  ((c6_diagnostic_panel ⟨true⟩ ⟨.str "page", none, none⟩ initialState
      ⟨"Error", "X failed"⟩ ⟨"at Page"⟩ rfl
      (fun _fb hfb => Option.noConfusion hfb)).2.1 rfl).1

/-- C7: a capture is fully contained: the cycle's result is an `ok` node
(the exception is never re-raised to the parent), the boundary transitions to
the error variant, every further cycle leaves the captured state untouched and
keeps showing the fallback whatever the descendants would now do (no automatic
retry), and only the manual reset returns `hasError` to false. -/
theorem c7_containment (env : Env) (props : ErrorBoundaryProps)
    (s : ErrorBoundaryState) (e : JsError) (info : ErrorInfo)
    (h : s.hasError = false) :
    (∃ n, (reactCycle env props s (.throws e info)).2.2 = ChildOutcome.ok n) ∧
    (reactCycle env props s (.throws e info)).1.hasError = true ∧
    (∀ child, reactCycle env props (reactCycle env props s (.throws e info)).1 child =
        ((reactCycle env props s (.throws e info)).1, noEffects,
          ChildOutcome.ok (render env props (reactCycle env props s (.throws e info)).1))) ∧
    (handleReset (reactCycle env props s (.throws e info)).1).hasError = false := by
  rw [reactCycle_throws_eq env props s e info h]
  exact ⟨⟨render env props (capturedState e info), rfl⟩, rfl,
    fun child => by simp [reactCycle, capturedState], rfl⟩

theorem c7_containment_witness :
    (reactCycle ⟨true⟩ ⟨.str "page", none, none⟩ initialState
        (.throws ⟨"Error", "X failed"⟩ ⟨"at Page"⟩)).1.hasError = true :=
  (c7_containment ⟨true⟩ ⟨.str "page", none, none⟩ initialState
      ⟨"Error", "X failed"⟩ ⟨"at Page"⟩ rfl).2.1

/-- C9: the state `getDerivedStateFromError` yields from the constructor
state still has `errorInfo = null`, and rendering it is total and
well-defined: with no custom fallback it is the recovery view, whose
diagnostic panel under the development flag shows the exception string and
renders the optionally-chained missing `componentStack` as nothing; and
whenever `state.error` is null the panel is not a `<details>` element at
all. -/
theorem c9_render_total_before_commit (env : Env) (props : ErrorBoundaryProps)
    (e : JsError) (s : ErrorBoundaryState)
    (hfb : props.fallback = none) (hs : s.error = none) :
    (getDerivedStateFromError e initialState).errorInfo = none ∧
    (getDerivedStateFromError e initialState).hasError = true ∧
    render env props (getDerivedStateFromError e initialState) =
      defaultFallback env (getDerivedStateFromError e initialState) ∧
    (env.DEV = true →
        devPanel env (getDerivedStateFromError e initialState) =
          .element "details" [("className", styles.errorDetails)]
            [ .element "summary" [("className", styles.errorSummary)]
                [.str "Error Details (Development Only)"],
              .element "div" [("className", styles.errorContent)]
                [ .element "pre" [("className", styles.errorStack)]
                    [.str (JsError.toString e), ReactNode.null] ] ]) ∧
    (devPanel env s).containsTag "details" = false := by
  refine ⟨rfl, rfl, ?_, fun hdev => ?_, ?_⟩
  · simp [render, getDerivedStateFromError, initialState, hfb]
  · simp [devPanel, getDerivedStateFromError, initialState, hdev]
  · cases hdev : env.DEV <;>
      simp [devPanel, hs, hdev, ReactNode.containsTag]

theorem c9_render_total_before_commit_witness :
    (getDerivedStateFromError ⟨"Error", "X failed"⟩ initialState).errorInfo = none :=
  (c9_render_total_before_commit ⟨true⟩ ⟨.str "page", none, none⟩
      ⟨"Error", "X failed"⟩ initialState rfl rfl).1

/-- C10 fails as stated: `fallback=\x7b""\x7d` is a supplied custom fallback
prop, yet in the error state (under the development flag) the code renders
the built-in recovery view, diagnostic panel included — the empty string is
falsy, so `if (this.props.fallback)` skips it. -/
theorem c10_counterexample :
    (⟨.element "main" [] [], some (.str ""), none⟩ : ErrorBoundaryProps).fallback =
      some (.str "") ∧
    render ⟨true⟩ ⟨.element "main" [] [], some (.str ""), none⟩
        (capturedState ⟨"Error", "boom"⟩ ⟨"at Main"⟩) =
      defaultFallback ⟨true⟩ (capturedState ⟨"Error", "boom"⟩ ⟨"at Main"⟩) ∧
    render ⟨true⟩ ⟨.element "main" [] [], some (.str ""), none⟩
        (capturedState ⟨"Error", "boom"⟩ ⟨"at Main"⟩) ≠ ReactNode.str "" ∧
    (defaultFallback ⟨true⟩
        (capturedState ⟨"Error", "boom"⟩ ⟨"at Main"⟩)).containsTag "details" = true := by
  refine ⟨rfl, rfl, ?_, by decide⟩
  simp [render, capturedState, ReactNode.truthy, defaultFallback]

/-- C10 (amended): whenever a truthy custom fallback is supplied and an error
has been captured, the rendered output is exactly that fallback, in every
environment — the built-in recovery view and its diagnostic panel are not
produced. -/
theorem c10_truthy_fallback_exact (env : Env) (props : ErrorBoundaryProps)
    (s : ErrorBoundaryState) (fb : ReactNode)
    (h : s.hasError = true) (hfb : props.fallback = some fb)
    (ht : fb.truthy = true) :
    render env props s = fb := by
  simp [render, h, hfb, ht]

theorem c10_truthy_fallback_exact_witness :
    render ⟨true⟩ ⟨.str "page", some (.element "aside" [] []), none⟩
        (capturedState ⟨"Error", "boom"⟩ ⟨"at Main"⟩) = .element "aside" [] [] :=
  c10_truthy_fallback_exact ⟨true⟩ ⟨.str "page", some (.element "aside" [] []), none⟩
    (capturedState ⟨"Error", "boom"⟩ ⟨"at Main"⟩) (.element "aside" [] [])
    rfl rfl rfl

end ErrorBoundary
